import Mathlib

/-!
Verification of the abipy Xcrysden writers (`abipy/iotools/xsf.py`) and of the
electron-phonon spectral-function quantities exercised by
`abipy/eph/tests/test_eph.py`.

The Python writers are shallowly embedded as pure functions from the structured
inputs to the list of strings passed to `file.write`, in source order.  Machine
floats are modelled as rationals; the `%`-formatting of CPython is reproduced on
the numerator/denominator representation with natural-number arithmetic so that
all writers are executable by kernel reduction.
-/

namespace Abipy

/-! ### Python string and number formatting -/

/-- Model of the CPython `str.lower()` used by the writers (`cplx_mode.lower()`,
`korder.lower()`); the strings compared against are ASCII, for which
`Char.toLower` agrees with CPython. -/
def pyLower (s : String) : String := String.mk (s.data.map Char.toLower)

/-- Left-pad a string with `'0'` up to width `w` (fraction digits of `%.Nf`). -/
def zeroPadL (w : Nat) (s : String) : String :=
  if s.length < w then String.mk (List.replicate (w - s.length) '0') ++ s else s

/-- Left-pad a string with spaces up to width `w` (the field width of `%20.14f`
and `%2d`). -/
def spacePadL (w : Nat) (s : String) : String :=
  if s.length < w then String.mk (List.replicate (w - s.length) ' ') ++ s else s

/-- Fixed-point rendering of the nonnegative rational `n / d` with `prec`
decimal digits: the scaled value is rounded half-up, then split into integer
and fraction digits.  (`(2*n*10^prec + d) / (2*d)` is the floor of
`n/d * 10^prec + 1/2`.) -/
def fmtFmag (prec : Nat) (n d : Nat) : String :=
  let scaled := (2 * n * 10 ^ prec + d) / (2 * d)
  toString (scaled / 10 ^ prec) ++ "." ++ zeroPadL prec (toString (scaled % 10 ^ prec))

/-- Model of the CPython `'%.{prec}f'` conversion on a rational value.  CPython
rounds the binary double to `prec` decimals; on the exact rational stand-in we
round half-up on the magnitude, which agrees on every value the claims
exercise. -/
def fmtF (prec : Nat) (q : ℚ) : String :=
  if q.num < 0 then "-" ++ fmtFmag prec q.num.natAbs q.den
  else fmtFmag prec q.num.toNat q.den

/-- Model of CPython `str()` on a float that is an exact short decimal: integer
part, a dot, then the fraction digits with trailing zeros stripped (at least
one digit, so `str(0.0) = "0.0"`). -/
def pyFloatStr (q : ℚ) : String :=
  let mag := fun (n d : Nat) =>
    let frac := (n % d) * 10 ^ 17 / d
    let digits := (zeroPadL 17 (toString frac)).data
    let kept := (digits.reverse.dropWhile (fun c => c = '0')).reverse
    toString (n / d) ++ "." ++ (if kept.isEmpty then "0" else String.mk kept)
  if q.num < 0 then "-" ++ mag q.num.natAbs q.den else mag q.num.toNat q.den

/-- A triple of rational Cartesian components. -/
def Vec3 : Type := ℚ × ℚ × ℚ

/-- A 3x3 matrix given as three row vectors. -/
def Mat3 : Type := Vec3 × Vec3 × Vec3

/-- Python exceptions surfaced by the writers. -/
inductive PyErr where
  | typeError (msg : String)
  | valueError (msg : String)
  | attributeError (name : String)
deriving DecidableEq

/-! ### The external `Structure` collaborator

Consumed read-only; it exposes real-space and reciprocal-space lattice vectors,
Cartesian coordinates and atomic numbers (spec section 3). -/

structure Structure where
  latt_r : Mat3
  latt_g : Mat3
  cart_coords : List Vec3
  atomic_numbers : List ℤ

/-- The `Structure.lattice_vectors(space=...)` accessor: `"r"` selects the
real-space lattice, `"g"` the reciprocal one. -/
def Structure.lattice_vectors (st : Structure) (space : String) : Mat3 :=
  if space = "r" then st.latt_r else st.latt_g

/-! ### xsf_write_structure (xsf.py lines 15-56) -/

/-- Source line 42: `forces = None`.  The assignment that would populate it
(line 43) is commented out, so the value is the constant `None`. -/
def xsf_forces : Option (List Vec3) := none

/-- The write for one lattice row, `' %.14f %.14f %.14f\n'` (line 38). -/
def primvecLine (v : Vec3) : String :=
  " " ++ fmtF 14 v.1 ++ " " ++ fmtF 14 v.2.1 ++ " " ++ fmtF 14 v.2.2 ++ "\n"

/-- The writes for one atom (lines 50-56): `' %2d'`, then
`' %20.14f %20.14f %20.14f'`, then the branch on `forces`.  The `some` branch
would evaluate the undefined name `cart_forces` (a `NameError` in Python); it
is unreachable because `xsf_forces` is `none`. -/
def atom_writes (z : ℤ) (c : Vec3) : List String :=
  [" " ++ spacePadL 2 (toString z),
   " " ++ spacePadL 20 (fmtF 14 c.1) ++ " " ++ spacePadL 20 (fmtF 14 c.2.1)
       ++ " " ++ spacePadL 20 (fmtF 14 c.2.2)] ++
  (match xsf_forces with
   | none => ["\n"]
   | some _ => ["<NameError: cart_forces>"])

/-- The writes for one structure inside the loop of `xsf_write_structure`
(lines 32-56), `n` being the 0-based loop index. -/
def struct_block (n : ℕ) (st : Structure) : List String :=
  let cell := st.lattice_vectors "r"
  ["# Primitive lattice vectors in Angstrom\n",
   "PRIMVEC " ++ toString (n + 1) ++ "\n",
   primvecLine cell.1, primvecLine cell.2.1, primvecLine cell.2.2,
   "# Cartesian coordinates in Angstrom.\n",
   "PRIMCOORD " ++ toString (n + 1) ++ "\n",
   " " ++ toString st.cart_coords.length ++ " 1\n"] ++
  (List.range st.cart_coords.length).flatMap
    (fun a => atom_writes (st.atomic_numbers.getD a 0) (st.cart_coords.getD a (0, 0, 0)))

/-- Body of `xsf_write_structure` after the `isinstance` normalisation: one
`CRYSTAL` header write, then the per-structure blocks. -/
def xsf_write_structure_list (structures : List Structure) : List String :=
  "CRYSTAL\n" :: (structures.enum.flatMap fun p => struct_block p.1 p.2)

/-- The Python argument `structures`: either a single `Structure` or a list of
them (lines 25-26 wrap a bare structure into a one-element list). -/
inductive StructArg where
  | one : Structure → StructArg
  | many : List Structure → StructArg

/-- `xsf_write_structure(file, structures)` as the sequence of strings written
to the sink. -/
def xsf_write_structure : StructArg → List String
  | .one s => xsf_write_structure_list [s]
  | .many l => xsf_write_structure_list l

/-- The per-structure block as the spec describes it: a `PRIMVEC` block, then a
`PRIMCOORD` block where every atom line is the atomic number, the three
Cartesian coordinates, and a newline, with no force columns. -/
def struct_block_spec (n : ℕ) (st : Structure) : List String :=
  let cell := st.lattice_vectors "r"
  ["# Primitive lattice vectors in Angstrom\n",
   "PRIMVEC " ++ toString (n + 1) ++ "\n",
   primvecLine cell.1, primvecLine cell.2.1, primvecLine cell.2.2,
   "# Cartesian coordinates in Angstrom.\n",
   "PRIMCOORD " ++ toString (n + 1) ++ "\n",
   " " ++ toString st.cart_coords.length ++ " 1\n"] ++
  (List.range st.cart_coords.length).flatMap
    (fun a => [" " ++ spacePadL 2 (toString (st.atomic_numbers.getD a 0)),
               " " ++ spacePadL 20 (fmtF 14 (st.cart_coords.getD a (0, 0, 0)).1)
                   ++ " " ++ spacePadL 20 (fmtF 14 (st.cart_coords.getD a (0, 0, 0)).2.1)
                   ++ " " ++ spacePadL 20 (fmtF 14 (st.cart_coords.getD a (0, 0, 0)).2.2),
               "\n"])

/-! ### Helper lemmas for the CRYSTAL header count -/

lemma space_append_ne_crystal (t : String) : " " ++ t ≠ "CRYSTAL\n" := by
  intro h
  have hd := congrArg String.data h
  rw [String.data_append] at hd
  have e1 : (" ").data = [' '] := rfl
  have e2 : ("CRYSTAL\n").data = ['C', 'R', 'Y', 'S', 'T', 'A', 'L', '\n'] := rfl
  rw [e1, e2] at hd
  have hh : ' ' = 'C' := by
    have := List.head_eq_of_cons_eq hd
    exact this
  exact absurd hh (by decide)

lemma primvec_append_ne_crystal (t : String) : "PRIMVEC " ++ t ≠ "CRYSTAL\n" := by
  intro h
  have hd := congrArg String.data h
  rw [String.data_append] at hd
  have e1 : ("PRIMVEC ").data = ['P', 'R', 'I', 'M', 'V', 'E', 'C', ' '] := rfl
  have e2 : ("CRYSTAL\n").data = ['C', 'R', 'Y', 'S', 'T', 'A', 'L', '\n'] := rfl
  rw [e1, e2] at hd
  have hh : 'P' = 'C' := by
    have := List.head_eq_of_cons_eq hd
    exact this
  exact absurd hh (by decide)

lemma primcoord_append_ne_crystal (t : String) : "PRIMCOORD " ++ t ≠ "CRYSTAL\n" := by
  intro h
  have hd := congrArg String.data h
  rw [String.data_append] at hd
  have e1 : ("PRIMCOORD ").data = ['P', 'R', 'I', 'M', 'C', 'O', 'O', 'R', 'D', ' '] := rfl
  have e2 : ("CRYSTAL\n").data = ['C', 'R', 'Y', 'S', 'T', 'A', 'L', '\n'] := rfl
  rw [e1, e2] at hd
  have hh : 'P' = 'C' := by
    have := List.head_eq_of_cons_eq hd
    exact this
  exact absurd hh (by decide)

lemma crystal_not_mem_atom_writes (z : ℤ) (c : Vec3) :
    "CRYSTAL\n" ∉ atom_writes z c := by
  intro h
  simp only [atom_writes, xsf_forces, List.cons_append, List.nil_append,
    List.mem_cons, List.not_mem_nil, or_false] at h
  rcases h with h | h | h
  · exact space_append_ne_crystal _ h.symm
  · exact space_append_ne_crystal _ h.symm
  · exact absurd h (by decide)

lemma crystal_not_mem_struct_block (n : ℕ) (st : Structure) :
    "CRYSTAL\n" ∉ struct_block n st := by
  intro h
  simp only [struct_block, List.cons_append, List.nil_append, List.mem_cons] at h
  rcases h with h | h | h | h | h | h | h | h | h
  · exact absurd h (by decide)
  · exact primvec_append_ne_crystal _ h.symm
  · exact space_append_ne_crystal _ h.symm
  · exact space_append_ne_crystal _ h.symm
  · exact space_append_ne_crystal _ h.symm
  · exact absurd h (by decide)
  · exact primcoord_append_ne_crystal _ h.symm
  · exact space_append_ne_crystal _ h.symm
  · rcases List.mem_flatMap.mp h with ⟨a, _, ha⟩
    exact crystal_not_mem_atom_writes _ _ ha

lemma crystal_count_struct_list (l : List Structure) :
    (xsf_write_structure_list l).count "CRYSTAL\n" = 1 := by
  rw [xsf_write_structure_list, List.count_cons_self]
  have h0 : (l.enum.flatMap fun p => struct_block p.1 p.2).count "CRYSTAL\n" = 0 := by
    rw [List.count_eq_zero]
    intro h
    rcases List.mem_flatMap.mp h with ⟨p, _, hp⟩
    exact crystal_not_mem_struct_block _ _ hp
  omega

/-- C10: calling `xsf_write_structure` with a single structure writes exactly
the same output as calling it with the one-element list containing that
structure, and exactly one `CRYSTAL` header write occurs per call regardless of
how many structures are passed. -/
theorem xsf_write_structure_single_list_crystal (s : Structure) (arg : StructArg) :
    xsf_write_structure (.one s) = xsf_write_structure (.many [s]) ∧
    (xsf_write_structure arg).count "CRYSTAL\n" = 1 := by
  constructor
  · rfl
  · cases arg with
    | one t => exact crystal_count_struct_list [t]
    | many l => exact crystal_count_struct_list l

/-- C9: no force columns are ever emitted by `xsf_write_structure`: every
per-structure block equals the force-free form in which each atom line is the
atomic number, the three Cartesian coordinates and a newline, because the local
`forces` value is always `None`, which makes the force-emission branch (the one
that references the otherwise-undefined name `cart_forces`) unreachable. -/
theorem struct_block_no_forces (n : ℕ) (st : Structure) :
    struct_block n st = struct_block_spec n st ∧ xsf_forces = none := by
  constructor
  · simp only [struct_block, struct_block_spec, atom_writes, xsf_forces,
      List.cons_append, List.nil_append]
  · rfl

/-! ### The concrete single-atom cubic structure of C7 -/

/-- The rational 4.05 (= 81/20), given in normal form so that the formatting
functions evaluate by kernel reduction. -/
def q405 : ℚ := ⟨81, 20, by decide, by decide⟩

/-- The rational 0 in normal form. -/
def qz : ℚ := ⟨0, 1, by decide, by decide⟩

/-- Single-atom cubic structure: lattice vectors `4.05 * I`, atomic number 13,
one atom at the origin. -/
def st0 : Structure :=
  { latt_r := ((q405, qz, qz), (qz, q405, qz), (qz, qz, q405)),
    latt_g := ((qz, qz, qz), (qz, qz, qz), (qz, qz, qz)),
    cart_coords := [(qz, qz, qz)],
    atomic_numbers := [13] }

/-- Split a character list at newlines (the lines of the written output). -/
def splitNl (l : List Char) : List (List Char) :=
  l.foldr (fun c acc => if c = '\n' then [] :: acc else (c :: acc.headD []) :: acc.tail) [[]]

/-- The lines of the concatenation of the written strings. -/
def outLines (ws : List String) : List String :=
  (splitNl (String.join ws).data).map String.mk

/-- C7 counterexample: serializing the single-atom cubic structure produces no
line equal to `13  0.00000000000000  0.00000000000000  0.00000000000000`; the
`%2d` and `%20.14f` conversions of the source yield a leading space and
20-character fields instead. -/
theorem c7_counterexample_line_not_produced :
    "13  0.00000000000000  0.00000000000000  0.00000000000000" ∉
      outLines (xsf_write_structure (.one st0)) := by
  decide

/-- C7 amended: serializing the single-atom cubic structure (lattice vectors
4.05 times the identity, atomic number 13, atom at the origin) emits the
`CRYSTAL` header, a `PRIMVEC 1` block of the 3x3 lattice in 14-decimal
fixed-point, and a `PRIMCOORD 1` block with exactly one atom line whose writes
are `' 13'` followed by the three origin coordinates in 20-character
14-decimal fields. -/
theorem c7_amended_concrete_output :
    xsf_write_structure (.one st0) =
      ["CRYSTAL\n",
       "# Primitive lattice vectors in Angstrom\n",
       "PRIMVEC 1\n",
       " 4.05000000000000 0.00000000000000 0.00000000000000\n",
       " 0.00000000000000 4.05000000000000 0.00000000000000\n",
       " 0.00000000000000 0.00000000000000 4.05000000000000\n",
       "# Cartesian coordinates in Angstrom.\n",
       "PRIMCOORD 1\n",
       " 1 1\n",
       " 13",
       "     0.00000000000000     0.00000000000000     0.00000000000000",
       "\n"] := by
  decide

/-! ### xsf_write_data (xsf.py lines 59-138)

The numpy array argument is modelled as nested lists in C order together with a
constructor for arrays whose rank is outside 3 and 4 (for those, the code reads
only `data.ndim` before rejecting them). -/

/-- A rank-3 array in C order: `d[x][y][z]`. -/
abbrev Grid3 (α : Type) := List (List (List α))

/-- A rank-4 array in C order: the leading axis stacks rank-3 grids. -/
abbrev Grid4 (α : Type) := List (Grid3 α)

/-- A numpy array as consumed by `xsf_write_data`: rank 3, rank 4, or some
other rank `n` (with `n` outside 3 and 4), of which the code only ever reads
`ndim` before raising. -/
inductive NpArr (α : Type) where
  | r3 : Grid3 α → NpArr α
  | r4 : Grid4 α → NpArr α
  | rn : ℕ → NpArr α

/-- Append a copy of the first entry at the end of a list (the periodic
closure of one axis). -/
def pad1 {α : Type} (l : List α) : List α := l ++ l.take 1

/-- Modelled from the spec: `abipy.tools.add_periodic_replicas` is imported by
the writer but its module is not under src/.  Spec 4.2: pad the array by
appending, along each of the last three axes, a copy of the first slice to the
end, producing a periodic closure of shape (..., nx+1, ny+1, nz+1). -/
def add_periodic_replicas3 {α : Type} (d : Grid3 α) : Grid3 α :=
  pad1 (d.map fun p => pad1 (p.map pad1))

/-- `add_periodic_replicas` on the dynamic-rank array: the padding acts on the
last three axes and preserves the rank. -/
def add_periodic_replicas {α : Type} : NpArr α → NpArr α
  | .r3 d => .r3 (add_periodic_replicas3 d)
  | .r4 ds => .r4 (ds.map add_periodic_replicas3)
  | .rn n => .rn n

/-- The numpy shape of a rank-3 nested list, read off the nesting lengths. -/
def shape3 {α : Type} (d : Grid3 α) : ℕ × ℕ × ℕ :=
  (d.length, (d.getD 0 []).length, ((d.getD 0 []).getD 0 []).length)

/-- Modelled from the spec: `abipy.tools.transpose_last3dims` is imported by
the writer but its module is not under src/.  Spec 4.2: reorder the last three
axes from (x, y, z) to (z, y, x), so the result satisfies
`t[z][y][x] = d[x][y][z]`. -/
def transpose_last3dims (d : Grid3 ℚ) : Grid3 ℚ :=
  (List.range ((d.getD 0 []).getD 0 []).length).map fun z =>
    (List.range (d.getD 0 []).length).map fun y =>
      (List.range d.length).map fun x => ((d.getD x []).getD y []).getD z 0

/-- One `'%f %f %f\n'` write (origin and lattice rows, lines 126-128). -/
def line3f (v : Vec3) : String :=
  fmtF 6 v.1 ++ " " ++ fmtF 6 v.2.1 ++ " " ++ fmtF 6 v.2.2 ++ "\n"

/-- The value writes of one datagrid (lines 130-135): for each z and y of the
transposed grid one joined `%f` row write and a newline write, plus a blank
line write after each z slice. -/
def datagrid_values (nzy : ℕ × ℕ) (fg : Grid3 ℚ) : List String :=
  (List.range nzy.1).flatMap fun z =>
    ((List.range nzy.2).flatMap fun y =>
      [String.intercalate " " (((fg.getD z []).getD y []).map (fmtF 6)), "\n"]) ++ ["\n"]

/-- The writes of one `BEGIN_DATAGRID_3Dgrid#k` block (lines 123-137); `dims`
is the pre-transpose `shape[-3:]`, `nzy` the first two entries of the
transposed `fgrid`, `fg` the transposed grid, `dg` the 0-based grid index. -/
def datagrid_block (cell : Mat3) (dims : ℕ × ℕ × ℕ) (nzy : ℕ × ℕ) (fg : Grid3 ℚ)
    (dg : ℕ) : List String :=
  [" BEGIN_DATAGRID_3Dgrid#" ++ toString (dg + 1) ++ "\n",
   toString dims.1 ++ " " ++ toString dims.2.1 ++ " " ++ toString dims.2.2 ++ "\n",
   line3f (0, 0, 0),
   line3f cell.1, line3f cell.2.1, line3f cell.2.2] ++
  datagrid_values nzy fg ++ [" END_DATAGRID_3D\n"]

/-- The emission phase of `xsf_write_data` (lines 111-138) on the stacked
grids; `dims` is the `shape[-3:]` captured at line 100. -/
def xsf_emit (st : Structure) (dims : ℕ × ℕ × ℕ) (grids : Grid4 ℚ) : List String :=
  let fgrids := grids.map transpose_last3dims
  let fg0 := shape3 (fgrids.getD 0 [])
  let cell := st.lattice_vectors "r"
  ["BEGIN_BLOCK_DATAGRID_3D\n", " data\n"] ++
  (List.range grids.length).flatMap
    (fun dg => datagrid_block cell dims (fg0.1, fg0.2.1) (fgrids.getD dg []) dg) ++
  ["END_BLOCK_DATAGRID_3D\n"]

/-- The rank dispatch of lines 100-109: rank 3 becomes the one-element stack
`np.asarray([data])`, rank 4 is kept, anything else raises. -/
def xsf_dispatch_emit (st : Structure) : NpArr ℚ → Except PyErr (List String)
  | .r3 d => .ok (xsf_emit st (shape3 d) [d])
  | .r4 ds => .ok (xsf_emit st (shape3 (ds.getD 0 [])) ds)
  | .rn n => .error (.valueError ("ndim " ++ toString n ++ " is not supported"))

/-- The number of stacked grids computed at lines 103-109 (`ngrids`). -/
def xsf_ngrids {α : Type} : NpArr α → Except PyErr ℕ
  | .r3 _ => .ok 1
  | .r4 ds => .ok ds.length
  | .rn n => .error (.valueError ("ndim " ++ toString n ++ " is not supported"))

/-- `xsf_write_data(file, structure, data, add_replicas, cplx_mode)` for a real
array: `np.iscomplexobj(data)` is false, so `cplx_mode` is never consulted
(lines 84-85 pad first, lines 87-98 are skipped, then dispatch and emit). -/
def xsf_write_data (st : Structure) (data : NpArr ℚ) (add_replicas : Bool)
    (cplx_mode : Option String) : Except PyErr (List String) :=
  let _ := cplx_mode
  xsf_dispatch_emit st (if add_replicas then add_periodic_replicas data else data)

/-- Elementwise map over a dynamic-rank array (numpy `data.real`, `data.imag`,
`np.abs(data)` are elementwise and shape-preserving). -/
def mapNp {α β : Type} (f : α → β) : NpArr α → NpArr β
  | .r3 d => .r3 (d.map fun p => p.map fun r => r.map f)
  | .r4 ds => .r4 (ds.map fun d => d.map fun p => p.map fun r => r.map f)
  | .rn n => .rn n

/-- The complex-reduction step of lines 87-98 for complex input.  Elements are
pairs (re, im) of rationals; `npabs` is the numpy elementwise complex
magnitude, a floating-point library primitive external to the repository,
taken as a parameter. -/
def cplx_reduce (npabs : ℚ × ℚ → ℚ) (cplx_mode : Option String)
    (data : NpArr (ℚ × ℚ)) : Except PyErr (NpArr ℚ) :=
  match cplx_mode with
  | none => .error (.typeError "cplx_mode must be specified when data is a complex array.")
  | some m =>
    let ml := pyLower m
    if ml = "re" then .ok (mapNp Prod.fst data)
    else if ml = "im" then .ok (mapNp Prod.snd data)
    else if ml = "abs" then .ok (mapNp npabs data)
    else .error (.valueError ("Wrong value for cplx_mode: " ++ ml))

/-- `xsf_write_data` for a complex array: pad (line 84), reduce via
`cplx_mode` (lines 87-98), then dispatch and emit as in the real case. -/
def xsf_write_data_cplx (npabs : ℚ × ℚ → ℚ) (st : Structure) (data : NpArr (ℚ × ℚ))
    (add_replicas : Bool) (cplx_mode : Option String) : Except PyErr (List String) :=
  let padded := if add_replicas then add_periodic_replicas data else data
  match cplx_reduce npabs cplx_mode padded with
  | .error e => .error e
  | .ok d => xsf_dispatch_emit st d

/-- Rectangularity of a rank-3 nested list with the given numpy shape. -/
def regular3 {α : Type} (nx ny nz : ℕ) (d : Grid3 α) : Prop :=
  d.length = nx ∧ ∀ p ∈ d, p.length = ny ∧ ∀ r ∈ p, r.length = nz

instance {α : Type} (nx ny nz : ℕ) (d : Grid3 α) : Decidable (regular3 nx ny nz d) := by
  unfold regular3; infer_instance

/-- C3: for a complex array, an absent `cplx_mode` raises the type error of
line 89; the mode is matched after lowering, with `re` selecting the
elementwise real part, `im` the elementwise imaginary part, `abs` the
elementwise magnitude, and any other string raising the value error of line 98
carrying the (lowercased) offending value. -/
theorem cplx_mode_dispatch (npabs : ℚ × ℚ → ℚ) (st : Structure) (a : NpArr (ℚ × ℚ))
    (ar : Bool) (m : String) :
    xsf_write_data_cplx npabs st a ar none =
      .error (.typeError "cplx_mode must be specified when data is a complex array.") ∧
    (pyLower m = "re" → cplx_reduce npabs (some m) a = .ok (mapNp Prod.fst a)) ∧
    (pyLower m = "im" → cplx_reduce npabs (some m) a = .ok (mapNp Prod.snd a)) ∧
    (pyLower m = "abs" → cplx_reduce npabs (some m) a = .ok (mapNp npabs a)) ∧
    (pyLower m ≠ "re" → pyLower m ≠ "im" → pyLower m ≠ "abs" →
      xsf_write_data_cplx npabs st a ar (some m) =
        .error (.valueError ("Wrong value for cplx_mode: " ++ pyLower m))) := by
  refine ⟨?_, ?_, ?_, ?_, ?_⟩
  · cases ar <;> simp [xsf_write_data_cplx, cplx_reduce]
  · intro h; simp [cplx_reduce, h]
  · intro h; simp [cplx_reduce, h]
  · intro h; simp [cplx_reduce, h]
  · intro h1 h2 h3
    cases ar <;> simp [xsf_write_data_cplx, cplx_reduce, h1, h2, h3]

/-- Witness for C3 at a concrete one-element complex grid: mixed-case `Re`
selects the real part, and the unknown mode `xyz` raises the value error. -/
theorem cplx_mode_dispatch_witness :
    cplx_reduce (fun z => z.1) (some "Re") (.r3 [[[(qz, q405)]]]) =
      .ok (mapNp Prod.fst (.r3 [[[(qz, q405)]]])) ∧
    xsf_write_data_cplx (fun z => z.1) st0 (.r3 [[[(qz, q405)]]]) false (some "xyz") =
      .error (.valueError ("Wrong value for cplx_mode: " ++ pyLower "xyz")) :=
  ⟨(cplx_mode_dispatch (fun z => z.1) st0 (.r3 [[[(qz, q405)]]]) false "Re").2.1 (by decide),
   (cplx_mode_dispatch (fun z => z.1) st0 (.r3 [[[(qz, q405)]]]) false "xyz").2.2.2.2
     (by decide) (by decide) (by decide)⟩

/-- C6: an array whose rank is neither 3 nor 4 is rejected with the value
error of line 109 naming the rank; a rank-3 array is treated exactly as the
one-grid stack, and a rank-4 array as `shape[0]` stacked grids. -/
theorem xsf_write_data_rank_dispatch (st : Structure) (n : ℕ) (d3 : Grid3 ℚ)
    (d4 : Grid4 ℚ) (ar : Bool) (_h3 : n ≠ 3) (_h4 : n ≠ 4) :
    xsf_write_data st (.rn n) ar none =
      .error (.valueError ("ndim " ++ toString n ++ " is not supported")) ∧
    xsf_write_data st (.r3 d3) ar none = xsf_write_data st (.r4 [d3]) ar none ∧
    xsf_ngrids (NpArr.r3 d3) = .ok 1 ∧
    xsf_ngrids (NpArr.r4 d4) = .ok d4.length := by
  refine ⟨?_, ?_, rfl, rfl⟩
  · cases ar <;> rfl
  · cases ar <;> rfl

/-- Witness for C6: rank 5 is rejected with the matching message, and an empty
stack of rank-4 grids has zero grids. -/
theorem xsf_write_data_rank_dispatch_witness :
    xsf_write_data st0 (.rn 5) false none =
      .error (.valueError ("ndim " ++ toString 5 ++ " is not supported")) ∧
    xsf_ngrids (NpArr.r4 ([] : Grid4 ℚ)) = .ok ([] : Grid4 ℚ).length :=
  ⟨(xsf_write_data_rank_dispatch st0 5 [[[qz]]] [] false (by decide) (by decide)).1,
   (xsf_write_data_rank_dispatch st0 5 [[[qz]]] [] false (by decide) (by decide)).2.2.2⟩

/-! ### Helper lemmas about the periodic padding -/

lemma pad1_length_of_ne_nil {α : Type} {l : List α} (h : l ≠ []) :
    (pad1 l).length = l.length + 1 := by
  cases l with
  | nil => exact absurd rfl h
  | cons a t => simp [pad1]

lemma mem_pad1 {α : Type} {l : List α} {x : α} (h : x ∈ pad1 l) : x ∈ l := by
  rcases List.mem_append.mp h with h | h
  · exact h
  · exact List.mem_of_mem_take h

lemma pad1_getD_cancel {α : Type} {l : List α} {n : ℕ} (hl : l.length = n) (d : α) :
    (pad1 l).getD n d = (pad1 l).getD 0 d := by
  cases l with
  | nil =>
    cases hl
    rfl
  | cons a t =>
    cases hl
    have hp : pad1 (a :: t) = a :: (t ++ [a]) := by simp [pad1]
    rw [hp, List.length_cons]
    rw [List.getD_cons_succ, List.getD_cons_zero, List.getD_eq_getElem?_getD]
    have he : (t ++ [a])[t.length]? = some a := by
      rw [List.getElem?_append_right (Nat.le_refl t.length)]
      simp
    rw [he]
    rfl

lemma getD_zero_mem {α : Type} {l : List α} (h : l ≠ []) (d : α) : l.getD 0 d ∈ l := by
  cases l with
  | nil => exact absurd rfl h
  | cons a t => rw [List.getD_cons_zero]; exact List.mem_cons_self a t

lemma ne_nil_of_length_pos {α : Type} {l : List α} {n : ℕ} (hl : l.length = n)
    (hn : 0 < n) : l ≠ [] := by
  intro h
  subst h
  simp at hl
  omega

lemma shape3_of_regular {nx ny nz : ℕ} {d : Grid3 ℚ} (hreg : regular3 nx ny nz d)
    (hx : 0 < nx) (hy : 0 < ny) : shape3 d = (nx, ny, nz) := by
  obtain ⟨hlen, hplanes⟩ := hreg
  have hdne : d ≠ [] := ne_nil_of_length_pos hlen hx
  have hp0 : d.getD 0 [] ∈ d := getD_zero_mem hdne []
  obtain ⟨hplen, hrows⟩ := hplanes _ hp0
  have hpne : d.getD 0 [] ≠ [] := ne_nil_of_length_pos hplen hy
  have hr0 : (d.getD 0 []).getD 0 [] ∈ d.getD 0 [] := getD_zero_mem hpne []
  have hrlen := hrows _ hr0
  have hs : shape3 d = (d.length, (d.getD 0 []).length, ((d.getD 0 []).getD 0 []).length) := rfl
  rw [hs, hlen, hplen, hrlen]

lemma regular3_pad {nx ny nz : ℕ} {d : Grid3 ℚ} (hx : 0 < nx) (hy : 0 < ny)
    (hz : 0 < nz) (hreg : regular3 nx ny nz d) :
    regular3 (nx + 1) (ny + 1) (nz + 1) (add_periodic_replicas3 d) := by
  obtain ⟨hlen, hplanes⟩ := hreg
  constructor
  · rw [add_periodic_replicas3, pad1_length_of_ne_nil, List.length_map, hlen]
    intro h
    exact ne_nil_of_length_pos hlen hx (List.map_eq_nil_iff.mp h)
  · intro pl hpl
    have hpl2 := mem_pad1 hpl
    rcases List.mem_map.mp hpl2 with ⟨q, hq, rfl⟩
    obtain ⟨hqlen, hqrows⟩ := hplanes _ hq
    constructor
    · rw [pad1_length_of_ne_nil, List.length_map, hqlen]
      intro h
      exact ne_nil_of_length_pos hqlen hy (List.map_eq_nil_iff.mp h)
    · intro r hr
      have hr2 := mem_pad1 hr
      rcases List.mem_map.mp hr2 with ⟨row, hrow, rfl⟩
      have hrowlen := hqrows _ hrow
      rw [pad1_length_of_ne_nil (ne_nil_of_length_pos hrowlen hz), hrowlen]

/-- C4 counterexample: the empty rank-3 array has shape (0, 0, 0), but its
periodic padding is again empty, not of shape (1, 1, 1): the claimed shape law
(nx+1, ny+1, nz+1) fails for degenerate (empty) fields. -/
theorem c4_counterexample_empty_field :
    regular3 0 0 0 ([] : Grid3 ℚ) ∧
    add_periodic_replicas3 ([] : Grid3 ℚ) = [] ∧
    ¬ regular3 (0 + 1) (0 + 1) (0 + 1) (add_periodic_replicas3 ([] : Grid3 ℚ)) := by
  refine ⟨by decide, rfl, ?_⟩
  intro h
  exact absurd h.1 (by decide)

/-- C4 amended: for every nonempty rank-3 field of shape (nx, ny, nz) with
nx, ny, nz all at least 1, padding with replicas yields shape
(nx+1, ny+1, nz+1), the appended slice at the last index along each padded
axis equals the slice at index 0 along that axis, and the writer emits the
padded dimensions as the DATAGRID grid dimensions. -/
theorem add_periodic_replicas_spec (st : Structure) (d : Grid3 ℚ) (nx ny nz : ℕ)
    (hx : 0 < nx) (hy : 0 < ny) (hz : 0 < nz) (hreg : regular3 nx ny nz d) :
    regular3 (nx + 1) (ny + 1) (nz + 1) (add_periodic_replicas3 d) ∧
    shape3 (add_periodic_replicas3 d) = (nx + 1, ny + 1, nz + 1) ∧
    xsf_write_data st (.r3 d) true none =
      .ok (xsf_emit st (nx + 1, ny + 1, nz + 1) [add_periodic_replicas3 d]) ∧
    (add_periodic_replicas3 d).getD nx [] = (add_periodic_replicas3 d).getD 0 [] ∧
    (∀ pl ∈ add_periodic_replicas3 d, pl.getD ny [] = pl.getD 0 []) ∧
    (∀ pl ∈ add_periodic_replicas3 d, ∀ r ∈ pl, r.getD nz 0 = r.getD 0 0) := by
  have hregp := regular3_pad hx hy hz hreg
  have hshape := shape3_of_regular hregp (Nat.succ_pos nx) (Nat.succ_pos ny)
  refine ⟨hregp, hshape, ?_, ?_, ?_, ?_⟩
  · show xsf_dispatch_emit st (.r3 (add_periodic_replicas3 d)) = _
    rw [xsf_dispatch_emit, hshape]
  · exact pad1_getD_cancel (by rw [List.length_map, hreg.1]) []
  · intro pl hpl
    rcases List.mem_map.mp (mem_pad1 hpl) with ⟨q, hq, rfl⟩
    exact pad1_getD_cancel (by rw [List.length_map, (hreg.2 _ hq).1]) []
  · intro pl hpl r hr
    rcases List.mem_map.mp (mem_pad1 hpl) with ⟨q, hq, rfl⟩
    rcases List.mem_map.mp (mem_pad1 hr) with ⟨row, hrow, rfl⟩
    exact pad1_getD_cancel ((hreg.2 _ hq).2 _ hrow) 0

/-- Witness for the amended C4 at a concrete 2x2x2 field. -/
theorem add_periodic_replicas_spec_witness :
    regular3 3 3 3
      (add_periodic_replicas3 [[[qz, q405], [q405, qz]], [[q405, q405], [qz, qz]]]) :=
  (add_periodic_replicas_spec st0 [[[qz, q405], [q405, qz]], [[q405, q405], [qz, qz]]]
    2 2 2 (by decide) (by decide) (by decide) (by decide)).1

/-! ### Helper lemmas for the emission theorem (C5) -/

lemma getD_range_map {α : Type} (f : ℕ → α) {n i : ℕ} (hi : i < n) (d : α) :
    ((List.range n).map f).getD i d = f i := by
  rw [List.getD_eq_getElem?_getD, List.getElem?_map, List.getElem?_range hi]
  rfl

lemma getD_map_list {α β : Type} (f : α → β) :
    ∀ (l : List α) (i : ℕ), i < l.length → ∀ (d : β) (d2 : α),
      (l.map f).getD i d = f (l.getD i d2)
  | [], i, h, _, _ => absurd h (by simp)
  | a :: t, 0, _, d, d2 => rfl
  | a :: t, i + 1, h, d, d2 => by
    rw [List.map_cons, List.getD_cons_succ, List.getD_cons_succ]
    exact getD_map_list f t i (by simpa using h) d d2

lemma getD_mem_of_lt {α : Type} :
    ∀ {l : List α} {i : ℕ}, i < l.length → ∀ (d : α), l.getD i d ∈ l
  | [], i, h, _ => absurd h (by simp)
  | a :: t, 0, _, d => by rw [List.getD_cons_zero]; exact List.mem_cons_self a t
  | a :: t, i + 1, h, d => by
    rw [List.getD_cons_succ]
    exact List.mem_cons_of_mem a (getD_mem_of_lt (by simpa using h) d)

lemma flatMap_congr_mem {α β : Type} {l : List α} {f g : α → List β}
    (h : ∀ a ∈ l, f a = g a) : l.flatMap f = l.flatMap g := by
  induction l with
  | nil => rfl
  | cons a t ih =>
    rw [List.flatMap_cons, List.flatMap_cons, h a (List.mem_cons_self a t),
      ih fun b hb => h b (List.mem_cons_of_mem a hb)]

lemma lengths_of_regular {nx ny nz : ℕ} {g : Grid3 ℚ} (hreg : regular3 nx ny nz g)
    (hx : 0 < nx) (hy : 0 < ny) :
    g.length = nx ∧ (g.getD 0 []).length = ny ∧ ((g.getD 0 []).getD 0 []).length = nz := by
  obtain ⟨hlen, hplanes⟩ := hreg
  have hp0 : g.getD 0 [] ∈ g := getD_zero_mem (ne_nil_of_length_pos hlen hx) []
  obtain ⟨hplen, hrows⟩ := hplanes _ hp0
  have hr0 : (g.getD 0 []).getD 0 [] ∈ g.getD 0 [] :=
    getD_zero_mem (ne_nil_of_length_pos hplen hy) []
  exact ⟨hlen, hplen, hrows _ hr0⟩

lemma transpose_eq_ranges {nx ny nz : ℕ} {g : Grid3 ℚ} (hreg : regular3 nx ny nz g)
    (hx : 0 < nx) (hy : 0 < ny) :
    transpose_last3dims g =
      (List.range nz).map fun z => (List.range ny).map fun y =>
        (List.range nx).map fun x => ((g.getD x []).getD y []).getD z 0 := by
  obtain ⟨h1, h2, h3⟩ := lengths_of_regular hreg hx hy
  rw [transpose_last3dims, h1, h2, h3]

lemma shape3_transpose {nx ny nz : ℕ} {g : Grid3 ℚ} (hreg : regular3 nx ny nz g)
    (hx : 0 < nx) (hy : 0 < ny) (hz : 0 < nz) :
    shape3 (transpose_last3dims g) = (nz, ny, nx) := by
  rw [transpose_eq_ranges hreg hx hy]
  have hs : ∀ (t : Grid3 ℚ), shape3 t =
      (t.length, (t.getD 0 []).length, ((t.getD 0 []).getD 0 []).length) := fun _ => rfl
  rw [hs]
  rw [getD_range_map _ hz, getD_range_map _ hy]
  simp [List.length_range]

lemma datagrid_values_spec {nx ny nz : ℕ} {g : Grid3 ℚ} (hreg : regular3 nx ny nz g)
    (hx : 0 < nx) (hy : 0 < ny) :
    datagrid_values (nz, ny) (transpose_last3dims g) =
      (List.range nz).flatMap fun z =>
        ((List.range ny).flatMap fun y =>
          [String.intercalate " "
            ((List.range nx).map fun x => fmtF 6 (((g.getD x []).getD y []).getD z 0)),
           "\n"]) ++ ["\n"] := by
  rw [datagrid_values]
  apply flatMap_congr_mem
  intro z hzmem
  have hzlt := List.mem_range.mp hzmem
  congr 1
  apply flatMap_congr_mem
  intro y hymem
  have hylt := List.mem_range.mp hymem
  have hrow : ((transpose_last3dims g).getD z []).getD y [] =
      (List.range nx).map fun x => ((g.getD x []).getD y []).getD z 0 := by
    rw [transpose_eq_ranges hreg hx hy, getD_range_map _ hzlt, getD_range_map _ hylt]
  rw [hrow, List.map_map]
  rfl

/-- The datagrid block as the claim describes it: 1-based tag, grid
dimensions, zero origin, the 3x3 lattice, then the values in (z, y, x) nesting
with one write per (z, y) row, a newline write after each row and a blank-line
write after each z slice, indexing the original grid as `g[x][y][z]`. -/
def datagrid_block_claim (cell : Mat3) (nx ny nz : ℕ) (g : Grid3 ℚ) (k : ℕ) :
    List String :=
  [" BEGIN_DATAGRID_3Dgrid#" ++ toString (k + 1) ++ "\n",
   toString nx ++ " " ++ toString ny ++ " " ++ toString nz ++ "\n",
   line3f (0, 0, 0), line3f cell.1, line3f cell.2.1, line3f cell.2.2] ++
  ((List.range nz).flatMap fun z =>
    ((List.range ny).flatMap fun y =>
      [String.intercalate " "
        ((List.range nx).map fun x => fmtF 6 (((g.getD x []).getD y []).getD z 0)),
       "\n"]) ++ ["\n"]) ++
  [" END_DATAGRID_3D\n"]

lemma xsf_emit_spec (st : Structure) (ds : Grid4 ℚ) (nx ny nz : ℕ)
    (hx : 0 < nx) (hy : 0 < ny) (hz : 0 < nz)
    (hreg : ∀ g ∈ ds, regular3 nx ny nz g) (hne : ds ≠ []) :
    xsf_emit st (shape3 (ds.getD 0 [])) ds =
      ["BEGIN_BLOCK_DATAGRID_3D\n", " data\n"] ++
      (List.range ds.length).flatMap
        (fun k => datagrid_block_claim (st.lattice_vectors "r") nx ny nz (ds.getD k []) k) ++
      ["END_BLOCK_DATAGRID_3D\n"] := by
  have hlpos : 0 < ds.length := List.length_pos.mpr hne
  have hg0 : ds.getD 0 [] ∈ ds := getD_zero_mem hne []
  have hdims : shape3 (ds.getD 0 []) = (nx, ny, nz) := shape3_of_regular (hreg _ hg0) hx hy
  have hfg : (ds.map transpose_last3dims).getD 0 [] = transpose_last3dims (ds.getD 0 []) :=
    getD_map_list _ _ _ hlpos [] []
  have hfg0 : shape3 ((ds.map transpose_last3dims).getD 0 []) = (nz, ny, nx) := by
    rw [hfg]
    exact shape3_transpose (hreg _ hg0) hx hy hz
  simp only [xsf_emit, List.length_map, hdims, hfg0]
  congr 1
  congr 1
  apply flatMap_congr_mem
  intro dg hdgmem
  have hdglt := List.mem_range.mp hdgmem
  have hfgd : (ds.map transpose_last3dims).getD dg [] =
      transpose_last3dims (ds.getD dg []) := getD_map_list _ _ _ hdglt [] []
  have hgmem : ds.getD dg [] ∈ ds := getD_mem_of_lt hdglt []
  rw [hfgd]
  rw [datagrid_block, datagrid_block_claim]
  rw [datagrid_values_spec (hreg _ hgmem) hx hy]

/-- C5: for every nonempty valid field (rank 3 as a single grid or rank 4 as
stacked grids, real or already reduced from complex), the writer transposes
the last three axes from (x, y, z) to (z, y, x) and emits one
`BEGIN_DATAGRID_3Dgrid#k`/`END_DATAGRID_3D` block per grid with 1-based index
k, each holding the grid dimensions, the zero origin, the 3x3 real-space
lattice, and the values in (z, y, x) nesting with one row write per (z, y)
pair and a blank line after each z slice, the row entry at position x being
the original value `g[x][y][z]`. -/
theorem xsf_write_data_emission (st : Structure) (ds : Grid4 ℚ) (d : Grid3 ℚ)
    (nx ny nz : ℕ) (hx : 0 < nx) (hy : 0 < ny) (hz : 0 < nz)
    (hreg : ∀ g ∈ ds, regular3 nx ny nz g) (hne : ds ≠ [])
    (hd : regular3 nx ny nz d) :
    xsf_write_data st (.r4 ds) false none =
      .ok (["BEGIN_BLOCK_DATAGRID_3D\n", " data\n"] ++
        (List.range ds.length).flatMap
          (fun k => datagrid_block_claim (st.lattice_vectors "r") nx ny nz (ds.getD k []) k) ++
        ["END_BLOCK_DATAGRID_3D\n"]) ∧
    xsf_write_data st (.r3 d) false none =
      .ok (["BEGIN_BLOCK_DATAGRID_3D\n", " data\n"] ++
        (List.range 1).flatMap
          (fun k => datagrid_block_claim (st.lattice_vectors "r") nx ny nz ([d].getD k []) k) ++
        ["END_BLOCK_DATAGRID_3D\n"]) := by
  constructor
  · show Except.ok (xsf_emit st (shape3 (ds.getD 0 [])) ds) = _
    rw [xsf_emit_spec st ds nx ny nz hx hy hz hreg hne]
  · show Except.ok (xsf_emit st (shape3 d) [d]) = _
    have h1 : ∀ g ∈ [d], regular3 nx ny nz g := by
      intro g hg
      rw [List.mem_singleton.mp hg]
      exact hd
    have h2 : shape3 (([d] : Grid4 ℚ).getD 0 []) = shape3 d := rfl
    rw [← h2, xsf_emit_spec st [d] nx ny nz hx hy hz h1 (by simp)]
    rfl

/-- Witness for C5 at a concrete 1x1x2 grid stacked twice. -/
theorem xsf_write_data_emission_witness :
    xsf_write_data st0 (.r4 [[[[qz, q405]]], [[[q405, qz]]]]) false none =
      .ok (["BEGIN_BLOCK_DATAGRID_3D\n", " data\n"] ++
        (List.range ([[[[qz, q405]]], [[[q405, qz]]]] : Grid4 ℚ).length).flatMap
          (fun k => datagrid_block_claim (st0.lattice_vectors "r") 1 1 2
            (([[[[qz, q405]]], [[[q405, qz]]]] : Grid4 ℚ).getD k []) k) ++
        ["END_BLOCK_DATAGRID_3D\n"]) :=
  (xsf_write_data_emission st0 [[[[qz, q405]]], [[[q405, qz]]]] [[[qz, qz]]] 1 1 2
    (by decide) (by decide) (by decide) (by decide) (by decide) (by decide)).1

/-! ### bxsf_write (xsf.py lines 141-205)

The `bands3d` argument is an external object of which the writer reads `pbc`,
`korder`, `shifts`, `nsppol`, `nband`, `kmesh_gen.ndivs` and `enebz`. -/

structure Bands3D where
  pbc : List Bool
  korder : String
  shifts : List ℚ
  nsppol : ℕ
  nband : ℕ
  ndivs : ℕ × ℕ × ℕ
  enebz : ℕ → ℕ → List ℚ

/-- The header writes of `bxsf_write` (lines 171-186): the INFO block with the
Fermi energy, the BANDGRID block opening, the number of bands, the mesh
divisions plus one, and the zero shift line. -/
def bxsf_header_writes (b : Bands3D) (fermie : ℚ) : List String :=
  ["BEGIN_INFO\n",
   "# Band-XCRYSDEN-Structure-File for Visualization of Fermi Surface generated by the ABINIT package\n",
   "# NOTE: the first band is relative to spin-up electrons,\n",
   "#       the second band to spin-down electrons (if any) and so on ...\n#\n",
   "# Launch as: xcrysden --bxsf\n#\n",
   " Fermi Energy: " ++ pyFloatStr fermie ++ "\n",
   "END_INFO\n\n",
   "BEGIN_BLOCK_BANDGRID_3D\n",
   " band_energies\n",
   " BEGIN_BANDGRID_3D\n",
   toString (b.nsppol * b.nband) ++ "\n",
   toString (b.ndivs.1 + 1) ++ " " ++ toString (b.ndivs.2.1 + 1) ++ " "
     ++ toString (b.ndivs.2.2 + 1) ++ "\n",
   "0 0 0\n"]

/-- `bxsf_write(file, bands3d, structure, fermie)` as the pair of the writes
performed and the exception raised, if any.  The three validations of lines
156-163 run before any write.  When they pass, the header is written, and then
line 189 evaluates `structure.lattive_vectors("g")`: the structure interface
exposes `lattice_vectors` (used correctly at lines 33 and 116) but no
attribute named `lattive_vectors`, so execution stops there with an
`AttributeError` before any `BAND:` sub-block is written and before the
`file.flush()` of line 205 runs. -/
def bxsf_write (b : Bands3D) (st : Structure) (fermie : ℚ) :
    List String × Option PyErr :=
  let _ := st
  if ¬ (b.pbc.all id = true) then
    ([], some (.valueError "The k-mesh does not contain redundant data points."))
  else if ¬ (pyLower b.korder = "c") then
    ([], some (.valueError "The k-mesh must be in C-order."))
  else if b.shifts.any (fun s => decide (s ≠ 0)) then
    ([], some (.valueError "The k-mesh must be Gamma-centered."))
  else
    (bxsf_header_writes b fermie, some (.attributeError "lattive_vectors"))

/-- A concrete band mesh that passes all three validations. -/
def b0 : Bands3D :=
  { pbc := [true, true, true],
    korder := "C",
    shifts := [qz, qz, qz],
    nsppol := 1,
    nband := 1,
    ndivs := (2, 2, 2),
    enebz := fun _ _ => [qz] }

/-- C1 (code bug): on a band mesh that passes the three validations, the
source does not reach the band-energy sub-blocks: after writing the header
block (through the `0 0 0` shift line) it evaluates the misspelled attribute
`structure.lattive_vectors` and raises an `AttributeError`, so no `BAND:`
sub-block is emitted and the sink is never flushed, contrary to the claim. -/
theorem bxsf_write_stops_at_misspelled_attribute :
    bxsf_write b0 st0 qz =
      (bxsf_header_writes b0 qz, some (.attributeError "lattive_vectors")) ∧
    " Fermi Energy: 0.0\n" ∈ (bxsf_write b0 st0 qz).1 ∧
    ∀ w ∈ (bxsf_write b0 st0 qz).1, w ≠ " BAND: 1\n" := by
  refine ⟨by decide, by decide, by decide⟩

/-- C2: whenever the mesh lacks redundant periodic boundary points, or is not
in C order, or has a nonzero shift, `bxsf_write` raises a value error whose
message names a violated precondition, and performs no write at all. -/
theorem bxsf_write_validation (b : Bands3D) (st : Structure) (f : ℚ)
    (h : ¬ (b.pbc.all id = true) ∨ pyLower b.korder ≠ "c" ∨ ∃ s ∈ b.shifts, s ≠ 0) :
    (bxsf_write b st f).1 = [] ∧
    ∃ m, (bxsf_write b st f).2 = some (.valueError m) ∧
      ((m = "The k-mesh does not contain redundant data points." ∧
          ¬ (b.pbc.all id = true)) ∨
       (m = "The k-mesh must be in C-order." ∧ pyLower b.korder ≠ "c") ∨
       (m = "The k-mesh must be Gamma-centered." ∧ ∃ s ∈ b.shifts, s ≠ 0)) := by
  rw [bxsf_write]
  by_cases h1 : b.pbc.all id = true
  · rw [if_neg (not_not_intro h1)]
    by_cases h2 : pyLower b.korder = "c"
    · rw [if_neg (not_not_intro h2)]
      by_cases h3 : b.shifts.any (fun s => decide (s ≠ 0)) = true
      · rw [if_pos h3]
        refine ⟨rfl, _, rfl, Or.inr (Or.inr ⟨rfl, ?_⟩)⟩
        rcases List.any_eq_true.mp h3 with ⟨s, hs, hs2⟩
        exact ⟨s, hs, of_decide_eq_true hs2⟩
      · exfalso
        rcases h with h | h | h
        · exact h h1
        · exact h h2
        · rcases h with ⟨s, hs, hs2⟩
          exact h3 (List.any_eq_true.mpr ⟨s, hs, decide_eq_true hs2⟩)
    · rw [if_pos h2]
      exact ⟨rfl, _, rfl, Or.inr (Or.inl ⟨rfl, h2⟩)⟩
  · rw [if_pos h1]
    exact ⟨rfl, _, rfl, Or.inl ⟨rfl, h1⟩⟩

/-- A band mesh violating only the ordering precondition. -/
def b1 : Bands3D :=
  { pbc := [true, true, true],
    korder := "F",
    shifts := [qz, qz, qz],
    nsppol := 1,
    nband := 1,
    ndivs := (2, 2, 2),
    enebz := fun _ _ => [qz] }

/-- Witness for C2: a Fortran-ordered mesh is rejected with no writes and a
value error naming a violated precondition. -/
theorem bxsf_write_validation_witness :
    (bxsf_write b1 st0 qz).1 = [] ∧
    ∃ m, (bxsf_write b1 st0 qz).2 = some (.valueError m) ∧
      ((m = "The k-mesh does not contain redundant data points." ∧
          ¬ (b1.pbc.all id = true)) ∨
       (m = "The k-mesh must be in C-order." ∧ pyLower b1.korder ≠ "c") ∨
       (m = "The k-mesh must be Gamma-centered." ∧ ∃ s ∈ b1.shifts, s ≠ 0)) :=
  bxsf_write_validation b1 st0 qz (Or.inr (Or.inl (by decide)))

/-! ### The a2F spectral function (C8)

The `SpectralFunction` class itself is not under src/ (only its test
`abipy/eph/tests/test_eph.py` is), so the quantities below are modelled from
the spec, sections 3 and 4.1. -/

/-- Modelled from the spec: the in-memory spectral function, with a frequency
mesh, per-spin sampled values, and the index `iw0` of the zero or near-zero
frequency used as the integration lower bound. -/
structure SpectralFunction where
  mesh : List ℚ
  values_spin : List (List ℚ)
  iw0 : ℕ

/-- Trapezoidal quadrature of samples `ys` over abscissas `xs`. -/
def trapz : List ℚ → List ℚ → ℚ
  | x1 :: x2 :: xs, y1 :: y2 :: ys => (x2 - x1) * (y1 + y2) / 2 + trapz (x2 :: xs) (y2 :: ys)
  | _, _ => 0

/-- Modelled from the spec: when `spin` is omitted the source column-sums the
spin channels before integrating. -/
def values_tot (sf : SpectralFunction) : List ℚ :=
  (List.range sf.mesh.length).map fun i => (sf.values_spin.map fun v => v.getD i 0).sum

/-- Modelled from the spec: `get_moment(n)` with `spin` omitted, the n-th
spectral moment lambda_n = 2 * integral over mesh[iw0:] of a2F(w) * w^(n-1),
by trapezoidal quadrature on the column-summed channels. -/
def get_moment (sf : SpectralFunction) (n : ℕ) : ℚ :=
  2 * trapz (sf.mesh.drop sf.iw0)
      (((sf.mesh.zip (values_tot sf)).map fun p => p.2 * p.1 ^ (n - 1)).drop sf.iw0)

/-- Trapezoidal quadrature over the reals (for the logarithmic moment). -/
noncomputable def trapzR : List ℝ → List ℝ → ℝ
  | x1 :: x2 :: xs, y1 :: y2 :: ys => (x2 - x1) * (y1 + y2) / 2 + trapzR (x2 :: xs) (y2 :: ys)
  | _, _ => 0

/-- Modelled from the spec: the characteristic logarithmic-average phonon
frequency, derived from a weighted moment integral,
omega_log = exp((2 / lambda) * integral of a2F(w) * ln(w) / w). -/
noncomputable def omega_log (sf : SpectralFunction) : ℝ :=
  Real.exp ((2 / ((get_moment sf 1 : ℚ) : ℝ)) *
    trapzR ((sf.mesh.drop sf.iw0).map fun q => (q : ℝ))
      (((sf.mesh.zip (values_tot sf)).drop sf.iw0).map
        fun p => ((p.2 : ℚ) : ℝ) * Real.log ((p.1 : ℚ) : ℝ) / ((p.1 : ℚ) : ℝ)))

/-- Modelled from the spec: the McMillan strong-coupling formula
Tc = (omega_log / 1.2) * exp(-1.04 (1 + lambda) / (lambda - mustar (1 + 0.62 lambda)))
with lambda = get_moment(1). -/
noncomputable def get_mcmillan_tc (sf : SpectralFunction) (mustar : ℝ) : ℝ :=
  let lam : ℝ := ((get_moment sf 1 : ℚ) : ℝ)
  (omega_log sf / 1.2) * Real.exp (-(1.04 * (1 + lam)) / (lam - mustar * (1 + 0.62 * lam)))

/-- Modelled from the spec: the inverse problem solved by root-finding over
the physically valid range (0, lambda / (1 + 0.62 lambda)), on which the
forward formula is monotonic; a fully converged bisection or Brent iteration
returns the unique root in that interval, which is how the root is modelled
here (the sentinel 0 outside the solvable range). -/
noncomputable def get_mustar_from_tc (sf : SpectralFunction) (tc : ℝ) : ℝ :=
  let lam : ℝ := ((get_moment sf 1 : ℚ) : ℝ)
  letI : Decidable (∃ m, m ∈ Set.Ioo (0 : ℝ) (lam / (1 + 0.62 * lam)) ∧
      get_mcmillan_tc sf m = tc) := Classical.propDecidable _
  if h : ∃ m, m ∈ Set.Ioo (0 : ℝ) (lam / (1 + 0.62 * lam)) ∧ get_mcmillan_tc sf m = tc
  then h.choose else 0

lemma mcmillan_strictAntiOn (sf : SpectralFunction)
    (hlam : 0 < ((get_moment sf 1 : ℚ) : ℝ)) :
    StrictAntiOn (get_mcmillan_tc sf)
      (Set.Ioo (0 : ℝ)
        (((get_moment sf 1 : ℚ) : ℝ) / (1 + 0.62 * ((get_moment sf 1 : ℚ) : ℝ)))) := by
  intro x hx y hy hxy
  simp only [get_mcmillan_tc]
  set lam : ℝ := ((get_moment sf 1 : ℚ) : ℝ) with hlamdef
  have hb : (0 : ℝ) < 1 + 0.62 * lam := by nlinarith
  have ha : (0 : ℝ) < 1.04 * (1 + lam) := by nlinarith
  have hdy : 0 < lam - y * (1 + 0.62 * lam) := by
    have h2 : y * (1 + 0.62 * lam) < lam := (lt_div_iff₀ hb).mp hy.2
    linarith
  have hdd : lam - y * (1 + 0.62 * lam) < lam - x * (1 + 0.62 * lam) := by nlinarith
  have key : 1.04 * (1 + lam) / (lam - x * (1 + 0.62 * lam)) <
      1.04 * (1 + lam) / (lam - y * (1 + 0.62 * lam)) :=
    div_lt_div_of_pos_left ha hdy hdd
  have hexp : Real.exp (-(1.04 * (1 + lam)) / (lam - y * (1 + 0.62 * lam))) <
      Real.exp (-(1.04 * (1 + lam)) / (lam - x * (1 + 0.62 * lam))) := by
    apply Real.exp_lt_exp.mpr
    rw [neg_div, neg_div]
    exact neg_lt_neg key
  exact mul_lt_mul_of_pos_left hexp (div_pos (Real.exp_pos _) (by norm_num))

/-- C8: for every spectral function with positive total coupling and every
rational Coulomb pseudopotential mustar in the open interval
(0, lambda / (1 + 0.62 lambda)) with lambda = get_moment(1), composing the
McMillan critical temperature with its root-finding inverse recovers mustar
within 1e-6 relative tolerance (here exactly, the modelled root-finder being
fully converged). -/
theorem mcmillan_roundtrip (sf : SpectralFunction) (mustar : ℚ)
    (hlam : 0 < get_moment sf 1) (h0 : 0 < mustar)
    (h1 : mustar < get_moment sf 1 / (1 + (31 / 50) * get_moment sf 1)) :
    |get_mustar_from_tc sf (get_mcmillan_tc sf (mustar : ℝ)) - (mustar : ℝ)| ≤
      (mustar : ℝ) * (1 / 1000000) := by
  have hlamR : (0 : ℝ) < ((get_moment sf 1 : ℚ) : ℝ) := by exact_mod_cast hlam
  have hmem : (mustar : ℝ) ∈ Set.Ioo (0 : ℝ)
      (((get_moment sf 1 : ℚ) : ℝ) / (1 + 0.62 * ((get_moment sf 1 : ℚ) : ℝ))) := by
    constructor
    · exact_mod_cast h0
    · have hc0 : ((mustar : ℝ)) <
          (((get_moment sf 1 / (1 + 31 / 50 * get_moment sf 1) : ℚ)) : ℝ) := by
        exact_mod_cast h1
      push_cast at hc0
      have he : ((31 : ℝ) / 50) = 0.62 := by norm_num
      rw [he] at hc0
      exact hc0
  have hex : ∃ m, m ∈ Set.Ioo (0 : ℝ)
      (((get_moment sf 1 : ℚ) : ℝ) / (1 + 0.62 * ((get_moment sf 1 : ℚ) : ℝ))) ∧
      get_mcmillan_tc sf m = get_mcmillan_tc sf (mustar : ℝ) := ⟨(mustar : ℝ), hmem, rfl⟩
  have heq : get_mustar_from_tc sf (get_mcmillan_tc sf (mustar : ℝ)) = hex.choose := by
    simp only [get_mustar_from_tc]
    rw [dif_pos hex]
  have hchoose := hex.choose_spec
  have hanti := mcmillan_strictAntiOn sf hlamR
  have hm : hex.choose = (mustar : ℝ) := hanti.injOn hchoose.1 hmem hchoose.2
  rw [heq, hm, sub_self, abs_zero]
  exact mul_nonneg (le_of_lt hmem.1) (by norm_num)

/-- A concrete spectral function: mesh [0, 1], one spin channel with constant
value 1, iw0 = 0, so that lambda = get_moment(1) = 2. -/
def sf0 : SpectralFunction := ⟨[0, 1], [[1, 1]], 0⟩

/-- Witness for C8 at sf0 and mustar = 1/2 (inside (0, 25/28)). -/
theorem mcmillan_roundtrip_witness :
    |get_mustar_from_tc sf0 (get_mcmillan_tc sf0 ((1 / 2 : ℚ) : ℝ)) - ((1 / 2 : ℚ) : ℝ)| ≤
      ((1 / 2 : ℚ) : ℝ) * (1 / 1000000) :=
  mcmillan_roundtrip sf0 (1 / 2)
    (by norm_num [get_moment, values_tot, trapz, sf0, List.range_succ])
    (by norm_num)
    (by norm_num [get_moment, values_tot, trapz, sf0, List.range_succ])

end Abipy
